import Mathlib

/-!
Shallow embedding of `src/bhph_crm.py` (BHPH CRM): the underwriting scoring
engine (`compute_pti`, `score_application`), the lead import pipeline status
coercion, the create-lead validation, and the tag-replace operation.
Numeric `Float` fields of the source are embedded as `ℚ`; Python `int`
fields as `Int`; booleans as `Bool`.
-/

/-- Allowed lead statuses (`HOT_WARM_COLD` in the source, line 17). -/
def HOT_WARM_COLD : List String := ["Hot", "Warm", "Cold"]

/-- Stored default for `FinanceApplication.risk_tier` (source line 115). -/
def default_risk_tier : String := "Unknown"

/-- Stored default for `FinanceApplication.decision` (source line 116). -/
def default_decision : String := "Review"

/-- The fields of the `FinanceApplication` model (source lines 79-117) that
the scoring engine reads, with the column defaults of the source. -/
structure FinanceApplication where
  gross_monthly_income : ℚ := 0
  net_monthly_income : ℚ := 0
  job_time_months : Int := 0
  residence_time_months : Int := 0
  rent_or_mortgage : ℚ := 0
  other_monthly_debt : ℚ := 0
  desired_payment : ℚ := 0
  down_payment : ℚ := 0
  has_repo : Bool := false
  has_bankruptcy : Bool := false
  first_time_buyer : Bool := false
  self_employed : Bool := false
  dl_on_file : Bool := false
  poi_on_file : Bool := false
  por_on_file : Bool := false
  references_on_file : Bool := false
deriving Repr, DecidableEq

/-- `compute_pti` (source lines 126-129): guarded payment-to-income ratio. -/
def compute_pti (net_income : ℚ) (desired_payment : ℚ) : ℚ :=
  if net_income ≤ 0 then 1 else desired_payment / net_income

/-- Round half to even, as Python string formatting does. -/
def roundHalfEven (q : ℚ) : Int :=
  let f : Int := Rat.floor q
  let r : ℚ := q - (f : ℚ)
  if r < 1/2 then f
  else if 1/2 < r then f + 1
  else if f % 2 = 0 then f else f + 1

/-- Percentage formatting used in the PTI notes (Python `f-string` `:.0%`). -/
def formatPct (q : ℚ) : String :=
  toString (roundHalfEven (q * 100)) ++ "%"

/-- Income-strength rule of `score_application` (source lines 140-151):
score adjustment and note as a function of net monthly income. -/
def incomeAdj (net : ℚ) : Int × String :=
  if net ≥ 2500 then (15, "Net income strong (>= $2,500).")
  else if net ≥ 2000 then (10, "Net income good (>= $2,000).")
  else if net ≥ 1500 then (5, "Net income moderate (>= $1,500).")
  else (-10, "Net income low (< $1,500).")

/-- PTI rule of `score_application` (source lines 154-166). -/
def ptiAdj (pti : ℚ) : Int × String :=
  if pti ≤ 0.20 then (15, "PTI excellent (" ++ formatPct pti ++ ").")
  else if pti ≤ 0.25 then (10, "PTI good (" ++ formatPct pti ++ ").")
  else if pti ≤ 0.30 then (0, "PTI borderline (" ++ formatPct pti ++ ").")
  else (-15, "PTI high (" ++ formatPct pti ++ ").")

/-- Job-time rule of `score_application` (source lines 169-177). -/
def jobAdj (months : Int) : Int × String :=
  if months ≥ 24 then (10, "Job time strong (>= 24 mo).")
  else if months ≥ 12 then (5, "Job time ok (>= 12 mo).")
  else (-10, "Job time short (< 12 mo).")

/-- Residence-time rule of `score_application` (source lines 180-188). -/
def resAdj (months : Int) : Int × String :=
  if months ≥ 24 then (8, "Residence time strong (>= 24 mo).")
  else if months ≥ 12 then (4, "Residence time ok (>= 12 mo).")
  else (-6, "Residence time short (< 12 mo).")

/-- Down-payment rule of `score_application` (source lines 191-202). -/
def downAdj (down : ℚ) : Int × String :=
  if down ≥ 1500 then (10, "Down payment strong (>= $1,500).")
  else if down ≥ 999 then (6, "Down payment ok (>= $999).")
  else if down > 0 then (2, "Down payment low (< $999).")
  else (-8, "No down payment.")

/-- Red-flag adjustments of `score_application` (source lines 205-216). -/
def redFlagAdj (app : FinanceApplication) : Int :=
  (if app.has_repo then -6 else 0)
  + (if app.has_bankruptcy then -6 else 0)
  + (if app.self_employed then -2 else 0)
  + (if app.first_time_buyer then -1 else 0)

/-- Red-flag notes of `score_application` (source lines 205-216), in order. -/
def redFlagNotes (app : FinanceApplication) : List String :=
  (if app.has_repo then ["Repo history flagged."] else [])
  ++ (if app.has_bankruptcy then ["Bankruptcy history flagged."] else [])
  ++ (if app.self_employed then ["Self-employed: verify income carefully."] else [])
  ++ (if app.first_time_buyer then ["First-time buyer."] else [])

/-- Missing-stips list of `score_application` (source lines 219-223). -/
def missing_stips (app : FinanceApplication) : List String :=
  (if app.dl_on_file then [] else ["DL"])
  ++ (if app.poi_on_file then [] else ["POI"])
  ++ (if app.por_on_file then [] else ["POR"])
  ++ (if app.references_on_file then [] else ["Refs"])

/-- Missing-stips penalty of `score_application` (source lines 224-225):
subtracted only when the missing list is nonempty. -/
def stipsPenalty (app : FinanceApplication) : Int :=
  if missing_stips app = [] then 0
  else min 12 (3 * ((missing_stips app).length : Int))

/-- Missing-stips note of `score_application` (source line 226). -/
def missingNote (app : FinanceApplication) : List String :=
  if missing_stips app = [] then []
  else ["Missing stips: " ++ String.intercalate ", " (missing_stips app) ++ "."]

/-- Running total of `score_application` before clamping (source lines
137-225): baseline 50 plus every rule adjustment. -/
def rawScore (app : FinanceApplication) : Int :=
  50 + (incomeAdj app.net_monthly_income).1
  + (ptiAdj (compute_pti app.net_monthly_income app.desired_payment)).1
  + (jobAdj app.job_time_months).1
  + (resAdj app.residence_time_months).1
  + (downAdj app.down_payment).1
  + redFlagAdj app
  - stipsPenalty app

/-- Clamp of the score to `[0, 100]` (source line 229). -/
def clamp (s : Int) : Int := max 0 (min 100 s)

/-- Tier and decision from the clamped score and the down payment
(source lines 232-243). -/
def tierDecision (score : Int) (down_payment : ℚ) : String × String :=
  if score ≥ 80 then ("A", "Approve")
  else if score ≥ 65 then ("B", "Approve")
  else if score ≥ 50 then ("C", "Review")
  else ("D", if down_payment < 999 then "Counter" else "Decline")

/-- The notes accumulated by `score_application`, in source order; the
source returns them joined with a space (line 245). -/
def scoreNotes (app : FinanceApplication) : List String :=
  [(incomeAdj app.net_monthly_income).2,
   (ptiAdj (compute_pti app.net_monthly_income app.desired_payment)).2,
   (jobAdj app.job_time_months).2,
   (resAdj app.residence_time_months).2,
   (downAdj app.down_payment).2]
  ++ redFlagNotes app
  ++ missingNote app

/-- Result tuple of `score_application` (source line 245): score, tier,
decision, and the note list (joined with a space in the source). -/
structure ScoreResult where
  score : Int
  tier : String
  decision : String
  notes : List String
deriving Repr, DecidableEq

/-- `score_application` (source lines 131-245). -/
def score_application (app : FinanceApplication) : ScoreResult :=
  let score := clamp (rawScore app)
  let td := tierDecision score app.down_payment
  { score := score, tier := td.1, decision := td.2, notes := scoreNotes app }

/-- A cell of an imported tabular row: the column may be absent, hold a
missing value (pandas `NaN`), or hold a string. -/
inductive Cell where
  | absent : Cell
  | nan : Cell
  | val : String → Cell
deriving Repr, DecidableEq

/-- Python `str.strip()`: drop leading and trailing whitespace. -/
def strip (s : String) : String :=
  String.mk (((s.data.dropWhile Char.isWhitespace).reverse.dropWhile
    Char.isWhitespace).reverse)

/-- `safe_str(row.get(column, dflt))` of the import handler (source lines
271-274 and 326-339): the default when the column is absent, the empty
string for a missing value, the stripped string otherwise. -/
def safe_str_get (c : Cell) (dflt : String) : String :=
  match c with
  | Cell.absent => strip dflt
  | Cell.nan => ""
  | Cell.val s => strip s

/-- Status stored for an imported row (source lines 338 and 341-342):
`safe_str(row.get("status", "Warm")) or "Warm"`, then coerced to `"Warm"`
when outside `HOT_WARM_COLD`. -/
def importedStatus (c : Cell) : String :=
  let s := safe_str_get c "Warm"
  let s := if s = "" then "Warm" else s
  if s ∈ HOT_WARM_COLD then s else "Warm"

/-- The `Lead` fields written by the import and create handlers
(source lines 32-52). -/
structure Lead where
  first_name : String := ""
  last_name : String := ""
  phone : String := ""
  phone2 : String := ""
  email : String := ""
  address1 : String := ""
  address2 : String := ""
  city : String := ""
  state : String := ""
  zip : String := ""
  source : String := ""
  status : String := "Warm"
  assigned_to : String := ""
deriving Repr, DecidableEq

/-- An imported tabular row: one `Cell` per column the importer reads. -/
structure Row where
  first_name : Cell := Cell.absent
  last_name : Cell := Cell.absent
  phone : Cell := Cell.absent
  phone2 : Cell := Cell.absent
  email : Cell := Cell.absent
  address1 : Cell := Cell.absent
  address2 : Cell := Cell.absent
  city : Cell := Cell.absent
  state : Cell := Cell.absent
  zip : Cell := Cell.absent
  source : Cell := Cell.absent
  status : Cell := Cell.absent
  assigned_to : Cell := Cell.absent
deriving Repr, DecidableEq

/-- The Lead built from one imported row (source lines 325-342): every
row yields a Lead, with no field validation; the status is coerced. -/
def importRow (r : Row) : Lead :=
  { first_name := safe_str_get r.first_name ""
    last_name := safe_str_get r.last_name ""
    phone := safe_str_get r.phone ""
    phone2 := safe_str_get r.phone2 ""
    email := safe_str_get r.email ""
    address1 := safe_str_get r.address1 ""
    address2 := safe_str_get r.address2 ""
    city := safe_str_get r.city ""
    state := safe_str_get r.state ""
    zip := safe_str_get r.zip ""
    source := safe_str_get r.source ""
    status := importedStatus r.status
    assigned_to := safe_str_get r.assigned_to "" }

/-- The import loop (source lines 324-344): each data row is added as one
Lead, unconditionally. -/
def importLeads (rows : List Row) : List Lead :=
  rows.map importRow

/-- A row whose name cells are present but blank. -/
def blankRow : Row :=
  { first_name := Cell.val "", last_name := Cell.val "" }

/-- Form input of the create-lead handler (source lines 360-382). -/
structure CreateLeadInput where
  first_name : String := ""
  last_name : String := ""
  status : String := "Warm"
  phone : String := ""
  phone2 : String := ""
  email : String := ""
  address1 : String := ""
  city : String := ""
  state : String := ""
  zip : String := ""
  source : String := ""
  assigned_to : String := ""
deriving Repr, DecidableEq

/-- The create-lead handler (source lines 384-404): rejects input whose
first and last names are both empty, otherwise stores the stripped lead. -/
def createLead (inp : CreateLeadInput) : Option Lead :=
  if inp.first_name = "" ∧ inp.last_name = "" then none
  else some
    { first_name := strip inp.first_name
      last_name := strip inp.last_name
      status := inp.status
      phone := strip inp.phone
      phone2 := strip inp.phone2
      email := strip inp.email
      address1 := strip inp.address1
      city := strip inp.city
      state := strip inp.state
      zip := strip inp.zip
      source := strip inp.source
      assigned_to := strip inp.assigned_to }

/-- The Update Tags handler (source lines 453-458): clear all existing
tags, then append each selected tag in order. -/
def replaceTags (tags : List String) (new_tags : List String) : List String :=
  new_tags.foldl (fun acc t => acc ++ [t]) ([] : List String)

/-- Number of the four verification flags that are false; the spec's
`count_missing`. -/
def countMissing (app : FinanceApplication) : Nat :=
  (if app.dl_on_file then 0 else 1)
  + (if app.poi_on_file then 0 else 1)
  + (if app.por_on_file then 0 else 1)
  + (if app.references_on_file then 0 else 1)

/-- Concrete application of the spec's worked example: net 1200, payment
500, 6 months job and residence, no down payment, repo and bankruptcy
flagged, nothing on file. -/
def exampleApp4 : FinanceApplication :=
  { net_monthly_income := 1200
    desired_payment := 500
    job_time_months := 6
    residence_time_months := 6
    down_payment := 0
    has_repo := true
    has_bankruptcy := true
    first_time_buyer := false
    self_employed := false
    dl_on_file := false
    poi_on_file := false
    por_on_file := false
    references_on_file := false }

lemma score_application_score (app : FinanceApplication) :
    (score_application app).score = clamp (rawScore app) := rfl

lemma score_application_tier (app : FinanceApplication) :
    (score_application app).tier
      = (tierDecision (clamp (rawScore app)) app.down_payment).1 := rfl

lemma score_application_decision (app : FinanceApplication) :
    (score_application app).decision
      = (tierDecision (clamp (rawScore app)) app.down_payment).2 := rfl

lemma score_application_notes (app : FinanceApplication) :
    (score_application app).notes = scoreNotes app := rfl

/-- C1: for every finance-application input snapshot, the score returned
by `score_application` lies between 0 and 100. -/
theorem claim_C1 (app : FinanceApplication) :
    0 ≤ (score_application app).score ∧ (score_application app).score ≤ 100 := by
  rw [score_application_score]
  unfold clamp
  omega

/-- Witness for C1 at the all-defaults application. -/
theorem claim_C1_witness :
    0 ≤ (score_application {}).score ∧ (score_application {}).score ≤ 100 :=
  claim_C1 {}

/-- C2: tier and decision are determined solely by the clamped score and
the down payment, following the table, and the four score ranges form a
total, non-overlapping partition of the integers in [0, 100]. -/
theorem claim_C2 :
    (∀ app : FinanceApplication,
      ((score_application app).tier, (score_application app).decision)
        = tierDecision (score_application app).score app.down_payment)
    ∧ (∀ s : Int, ∀ d : ℚ,
        (80 ≤ s → tierDecision s d = ("A", "Approve"))
        ∧ (65 ≤ s → s ≤ 79 → tierDecision s d = ("B", "Approve"))
        ∧ (50 ≤ s → s ≤ 64 → tierDecision s d = ("C", "Review"))
        ∧ (s < 50 → d < 999 → tierDecision s d = ("D", "Counter"))
        ∧ (s < 50 → 999 ≤ d → tierDecision s d = ("D", "Decline")))
    ∧ (∀ s : Int, 0 ≤ s → s ≤ 100 →
        ((if 80 ≤ s then 1 else 0) + (if 65 ≤ s ∧ s ≤ 79 then 1 else 0)
          + (if 50 ≤ s ∧ s ≤ 64 then 1 else 0)
          + (if s < 50 then 1 else 0) : Int) = 1) := by
  refine ⟨fun app => ?_, fun s d => ?_, fun s h0 h100 => ?_⟩
  · rw [score_application_tier, score_application_decision, score_application_score]
  · refine ⟨fun h => ?_, fun h1 h2 => ?_, fun h1 h2 => ?_, fun h1 h2 => ?_, fun h1 h2 => ?_⟩
    · unfold tierDecision
      rw [if_pos (by omega : s ≥ 80)]
    · unfold tierDecision
      rw [if_neg (by omega : ¬ s ≥ 80), if_pos (by omega : s ≥ 65)]
    · unfold tierDecision
      rw [if_neg (by omega : ¬ s ≥ 80), if_neg (by omega : ¬ s ≥ 65),
        if_pos (by omega : s ≥ 50)]
    · unfold tierDecision
      rw [if_neg (by omega : ¬ s ≥ 80), if_neg (by omega : ¬ s ≥ 65),
        if_neg (by omega : ¬ s ≥ 50), if_pos h2]
    · unfold tierDecision
      rw [if_neg (by omega : ¬ s ≥ 80), if_neg (by omega : ¬ s ≥ 65),
        if_neg (by omega : ¬ s ≥ 50), if_neg (by exact not_lt.2 h2)]
  · split_ifs <;> omega

/-- Witness for C2 at score 80 (tier A) and score 40 with no down payment
(tier D, Counter). -/
theorem claim_C2_witness :
    tierDecision 80 0 = ("A", "Approve") ∧ tierDecision 40 0 = ("D", "Counter") :=
  ⟨(claim_C2.2.1 80 0).1 (by norm_num),
   (claim_C2.2.1 40 0).2.2.2.1 (by norm_num) (by norm_num)⟩

/-- C3: `compute_pti` returns 1 when net income is nonpositive and the
exact ratio otherwise (the guard keeps the divisor nonzero), and
`compute_pti 1000 250 = 0.25`. -/
theorem claim_C3 :
    (∀ net d : ℚ, net ≤ 0 → compute_pti net d = 1)
    ∧ (∀ net d : ℚ, 0 < net → net ≠ 0 ∧ compute_pti net d = d / net)
    ∧ compute_pti 1000 250 = 0.25 := by
  refine ⟨fun net d h => ?_, fun net d h => ⟨ne_of_gt h, ?_⟩, ?_⟩
  · simp [compute_pti, h]
  · simp [compute_pti, not_le.2 h]
  · norm_num [compute_pti]

/-- Witness for C3: nonpositive income gives ratio 1; positive income
gives the exact quotient. -/
theorem claim_C3_witness :
    compute_pti (-5) 7 = 1 ∧ compute_pti 8 4 = 4 / 8 :=
  ⟨claim_C3.1 (-5) 7 (by norm_num), (claim_C3.2.1 8 4 (by norm_num)).2⟩

/-- C4: the spec's worked example scores raw -23, clamped to 0, tier D,
decision Counter. -/
theorem claim_C4 :
    rawScore exampleApp4 = -23
    ∧ (score_application exampleApp4).score = 0
    ∧ (score_application exampleApp4).tier = "D"
    ∧ (score_application exampleApp4).decision = "Counter" := by
  have hraw : rawScore exampleApp4 = -23 := by
    norm_num [rawScore, exampleApp4, incomeAdj, ptiAdj, jobAdj, resAdj, downAdj,
      redFlagAdj, stipsPenalty, missing_stips, compute_pti]
    decide
  have hclamp : clamp (rawScore exampleApp4) = 0 := by
    rw [hraw]; unfold clamp; omega
  refine ⟨hraw, ?_, ?_, ?_⟩
  · rw [score_application_score, hclamp]
  · rw [score_application_tier, hclamp]
    norm_num [tierDecision, exampleApp4]
  · rw [score_application_decision, hclamp]
    norm_num [tierDecision, exampleApp4]

/-- C5: the missing-verification rule subtracts exactly
min(12, 3 * count_missing), and the missing list names exactly the flags
that are false; when any is missing the note listing them is emitted. -/
theorem claim_C5 (app : FinanceApplication) :
    stipsPenalty app = min 12 (3 * (countMissing app : Int))
    ∧ (missing_stips app).length = countMissing app
    ∧ ("DL" ∈ missing_stips app ↔ app.dl_on_file = false)
    ∧ ("POI" ∈ missing_stips app ↔ app.poi_on_file = false)
    ∧ ("POR" ∈ missing_stips app ↔ app.por_on_file = false)
    ∧ ("Refs" ∈ missing_stips app ↔ app.references_on_file = false)
    ∧ (0 < countMissing app →
        ("Missing stips: " ++ String.intercalate ", " (missing_stips app) ++ ".")
          ∈ (score_application app).notes) := by
  obtain ⟨g, net, job, res, rent, debt, pay, down, repo, bk, ftb, se, dl, poi, por, refs⟩ := app
  refine ⟨?_, ?_, ?_, ?_, ?_, ?_, ?_⟩ <;>
    cases dl <;> cases poi <;> cases por <;> cases refs <;>
      simp [stipsPenalty, countMissing, missing_stips, score_application_notes,
        scoreNotes, missingNote]

/-- Witness for C5 at the all-defaults application, where all four
verification items are missing. -/
theorem claim_C5_witness :
    stipsPenalty {} = min 12 (3 * (countMissing ({} : FinanceApplication) : Int))
    ∧ ("Missing stips: "
        ++ String.intercalate ", " (missing_stips ({} : FinanceApplication)) ++ ".")
        ∈ (score_application ({} : FinanceApplication)).notes :=
  ⟨(claim_C5 {}).1, (claim_C5 {}).2.2.2.2.2.2 (by decide)⟩

/-- C6: holding every other field fixed, moving net monthly income from
below 1500 to above 2500 moves the income-rule contribution from -10 to
+15, so it never decreases. -/
theorem claim_C6 (app : FinanceApplication) (n2 : ℚ)
    (h1 : app.net_monthly_income < 1500) (h2 : 2500 < n2) :
    (incomeAdj app.net_monthly_income).1 = -10
    ∧ (incomeAdj ({ app with net_monthly_income := n2 }
        : FinanceApplication).net_monthly_income).1 = 15
    ∧ (incomeAdj app.net_monthly_income).1
        ≤ (incomeAdj ({ app with net_monthly_income := n2 }
            : FinanceApplication).net_monthly_income).1 := by
  have hb : ({ app with net_monthly_income := n2 }
      : FinanceApplication).net_monthly_income = n2 := rfl
  have e1 : (incomeAdj app.net_monthly_income).1 = -10 := by
    unfold incomeAdj
    rw [if_neg (not_le.2 (by linarith : app.net_monthly_income < 2500)),
      if_neg (not_le.2 (by linarith : app.net_monthly_income < 2000)),
      if_neg (not_le.2 (by linarith : app.net_monthly_income < 1500))]
  have e2 : (incomeAdj n2).1 = 15 := by
    unfold incomeAdj
    rw [if_pos (by linarith : n2 ≥ 2500)]
  refine ⟨e1, by rw [hb, e2], by rw [hb, e1, e2]; norm_num⟩

/-- Witness for C6: the all-defaults application (net income 0) against
the same application with net income 3000. -/
theorem claim_C6_witness :
    (incomeAdj (({} : FinanceApplication)).net_monthly_income).1 = -10
    ∧ (incomeAdj ({ ({} : FinanceApplication) with net_monthly_income := 3000 }
        : FinanceApplication).net_monthly_income).1 = 15
    ∧ (incomeAdj (({} : FinanceApplication)).net_monthly_income).1
        ≤ (incomeAdj ({ ({} : FinanceApplication) with net_monthly_income := 3000 }
            : FinanceApplication).net_monthly_income).1 :=
  claim_C6 {} 3000 (show (0 : ℚ) < 1500 by norm_num) (by norm_num)

lemma coerce_mem (s : String) :
    (if s ∈ HOT_WARM_COLD then s else "Warm") ∈ HOT_WARM_COLD := by
  split_ifs with h
  · exact h
  · decide

/-- C7: every imported Lead stores a status in {Hot, Warm, Cold}; any raw
status outside that set — including "Unknown", a missing value and an
absent column — is stored as "Warm". -/
theorem claim_C7 :
    (∀ r : Row, (importRow r).status ∈ HOT_WARM_COLD)
    ∧ (∀ c : Cell, importedStatus c ∈ HOT_WARM_COLD)
    ∧ (∀ s : String, strip s ∉ HOT_WARM_COLD → importedStatus (Cell.val s) = "Warm")
    ∧ importedStatus (Cell.val "Unknown") = "Warm"
    ∧ importedStatus Cell.nan = "Warm"
    ∧ importedStatus Cell.absent = "Warm" := by
  have hmem : ∀ c : Cell, importedStatus c ∈ HOT_WARM_COLD := by
    intro c
    unfold importedStatus
    exact coerce_mem _
  have hval : ∀ s : String, strip s ∉ HOT_WARM_COLD →
      importedStatus (Cell.val s) = "Warm" := by
    intro s h
    show (if (if strip s = "" then "Warm" else strip s) ∈ HOT_WARM_COLD
        then (if strip s = "" then "Warm" else strip s) else "Warm") = "Warm"
    by_cases h0 : strip s = ""
    · rw [if_pos h0]
      decide
    · rw [if_neg h0, if_neg h]
  refine ⟨fun r => hmem r.status, hmem, hval, hval "Unknown" (by decide), rfl, rfl⟩

/-- Witness for C7: a status value outside the allowed set is coerced. -/
theorem claim_C7_witness :
    importedStatus (Cell.val "Bogus") = "Warm" :=
  claim_C7.2.2.1 "Bogus" (by decide)

lemma foldl_append_eq (l acc : List String) :
    l.foldl (fun a t => a ++ [t]) acc = acc ++ l := by
  induction l generalizing acc with
  | nil => simp
  | cons x xs ih => simp [List.foldl, ih]

/-- C8: replacing a lead's tags twice with the same duplicate-free set
gives the same final tag set as replacing once, with no duplicates. -/
theorem claim_C8 (tags new_tags : List String) (h : new_tags.Nodup) :
    replaceTags (replaceTags tags new_tags) new_tags = replaceTags tags new_tags
    ∧ (replaceTags tags new_tags).Nodup := by
  have e : ∀ old : List String, replaceTags old new_tags = new_tags := by
    intro old
    unfold replaceTags
    rw [foldl_append_eq]
    rfl
  exact ⟨by rw [e, e], by rw [e]; exact h⟩

/-- Witness for C8 on a concrete lead tag list and selection. -/
theorem claim_C8_witness :
    replaceTags (replaceTags ["Old Tag"] ["Repo", "Bankruptcy"]) ["Repo", "Bankruptcy"]
      = replaceTags ["Old Tag"] ["Repo", "Bankruptcy"]
    ∧ (replaceTags ["Old Tag"] ["Repo", "Bankruptcy"]).Nodup :=
  claim_C8 ["Old Tag"] ["Repo", "Bankruptcy"] (by decide)

lemma tierDecision_mem (s : Int) (d : ℚ) :
    (tierDecision s d).1 ∈ ["A", "B", "C", "D"]
    ∧ (tierDecision s d).1 ≠ "Unknown"
    ∧ (tierDecision s d).2 ∈ ["Approve", "Counter", "Review", "Decline"] := by
  unfold tierDecision
  split_ifs <;> refine ⟨by decide, by decide, by decide⟩

/-- C9: scoring always yields a tier in {A, B, C, D} (never the stored
default "Unknown") and a decision in {Approve, Counter, Review, Decline};
"Unknown" and "Review" are only the stored defaults of an unscored
application. -/
theorem claim_C9 :
    (∀ app : FinanceApplication,
      (score_application app).tier ∈ ["A", "B", "C", "D"]
      ∧ (score_application app).tier ≠ default_risk_tier
      ∧ (score_application app).decision ∈ ["Approve", "Counter", "Review", "Decline"])
    ∧ default_risk_tier = "Unknown" ∧ default_decision = "Review" := by
  refine ⟨fun app => ?_, rfl, rfl⟩
  rw [score_application_tier, score_application_decision]
  have h := tierDecision_mem (clamp (rawScore app)) app.down_payment
  simpa [default_risk_tier] using h

/-- Witness for C9 at the all-defaults application. -/
theorem claim_C9_witness :
    (score_application {}).tier ∈ ["A", "B", "C", "D"]
    ∧ (score_application {}).tier ≠ default_risk_tier
    ∧ (score_application {}).decision ∈ ["Approve", "Counter", "Review", "Decline"] :=
  claim_C9.1 {}

/-- C10: the import pipeline stores one Lead per data row with no
required-field validation (a row with blank names is stored), while the
create-lead handler rejects input with neither name and stores nothing. -/
theorem claim_C10 :
    (∀ rows : List Row, (importLeads rows).length = rows.length)
    ∧ (importRow blankRow).first_name = "" ∧ (importRow blankRow).last_name = ""
    ∧ (∀ inp : CreateLeadInput,
        inp.first_name = "" → inp.last_name = "" → createLead inp = none)
    ∧ (∀ inp : CreateLeadInput,
        ¬(inp.first_name = "" ∧ inp.last_name = "") →
          ∃ l : Lead, createLead inp = some l) := by
  refine ⟨fun rows => ?_, by decide, by decide, fun inp h1 h2 => ?_, fun inp h => ?_⟩
  · simp [importLeads]
  · unfold createLead
    rw [if_pos ⟨h1, h2⟩]
  · unfold createLead
    rw [if_neg h]
    exact ⟨_, rfl⟩

/-- Witness for C10: the empty create-lead form is rejected; a form with
only a first name is stored. -/
theorem claim_C10_witness :
    createLead {} = none
    ∧ ∃ l : Lead, createLead { first_name := "Jo" } = some l :=
  ⟨claim_C10.2.2.2.1 {} rfl rfl,
   claim_C10.2.2.2.2 { first_name := "Jo" } (by decide)⟩
